import Mathlib

/-!
Verification development for the RequestBite Slingshot proxy
(`requestbite/proxy`, Go).

The definitions below are a shallow embedding of the Go source:

* `internal/proxy/server.go` — the HTTP server: loop detection
  (`detectLoop`, `isProxyUserAgent`, `isLoopbackRequest`,
  `isBlockedHostname`), the `/proxy/request` and `/proxy/form` handlers,
  the error-envelope writers, and the response/request data types.
* the HTTP client (`client.go`, embedded in the repository README) —
  `ExecuteRequest`, `executeWithRedirects`, `validateURL`,
  `processResponse`, `isBinaryContent`, `isSSEResponse`,
  `createErrorResponse`, `createStreamingResponse`,
  `createStreamingErrorResponse`, `substitutePathParams`.

Go standard-library behaviour that the source calls into is modelled
explicitly and is documented at each definition: `strings.Contains`,
`strings.EqualFold`, `strings.ReplaceAll`, `strings.TrimPrefix`,
`url.QueryEscape`, `http.Header.Get`, base64, and the `%.2f`
formatting used for sizes and durations.  Strings are modelled
character-wise (the concrete inputs appearing in the theorems are
ASCII, where Go bytes and Lean characters agree).  The results of
`net/url.Parse` are modelled as an explicit `Option UrlParts` input,
since URL parsing happens in the standard library, outside this
repository; the repository code only inspects the parsed scheme, host,
hostname and path.
-/

/-- Tests whether `p` is a prefix of `s` (character lists). -/
def hasPre : List Char → List Char → Bool
  | [], _ => true
  | _ :: _, [] => false
  | p :: ps, c :: cs => p = c && hasPre ps cs

/-- Tests whether `pat` occurs as a contiguous sublist of `s`.
Models the search underlying Go `strings.Contains`. -/
def occursIn (pat : List Char) : List Char → Bool
  | [] => pat.isEmpty
  | c :: rest => hasPre pat (c :: rest) || occursIn pat rest

/-- Model of Go `strings.Contains(s, sub)`. -/
def strContains (s sub : String) : Bool :=
  occursIn sub.data s.data

/-- Model of Go `strings.ToLower` restricted to ASCII case folding
(the hostnames and header tokens the source lower-cases are ASCII).
Defined character-wise so that it evaluates by kernel reduction. -/
def strToLower (s : String) : String :=
  String.mk (s.data.map Char.toLower)

/-- Model of Go `strings.EqualFold` restricted to ASCII case folding
(the hostnames and header tokens compared in the source are ASCII). -/
def eqFold (a b : String) : Bool :=
  strToLower a == strToLower b

/-- Model of Go `strings.TrimPrefix(s, ":")` as used by
`substitutePathParams`: drop one leading colon if present. -/
def trimLeadColon (s : String) : String :=
  match s.data with
  | ':' :: rest => String.mk rest
  | _ => s

/-- Core of Go `strings.ReplaceAll` for a non-empty pattern
`p :: pt`: scan left to right, replacing each leftmost,
non-overlapping occurrence of the pattern by `rep`.  The extra `fuel`
argument is a structural-termination device only: every step consumes
at least one character, so any `fuel ≥ s.length` (the caller passes
`s.length`) makes the function agree with the unbounded scan. -/
def replChars (p : Char) (pt rep : List Char) : Nat → List Char → List Char
  | _, [] => []
  | 0, s => s
  | fuel + 1, c :: rest =>
    if hasPre (p :: pt) (c :: rest) then
      rep ++ replChars p pt rep fuel (List.drop pt.length rest)
    else
      c :: replChars p pt rep fuel rest

/-- Model of Go `strings.ReplaceAll(s, pat, rep)`.  For an empty
pattern Go inserts `rep` before every character and at the end;
for a non-empty pattern it replaces leftmost non-overlapping
occurrences. -/
def replaceAll (s pat rep : String) : String :=
  match pat.data with
  | [] => String.mk (rep.data ++ s.data.flatMap (fun c => c :: rep.data))
  | p :: pt => String.mk (replChars p pt rep.data s.data.length s.data)

/-- The uppercase hexadecimal digit table `upperhex` of Go
`net/url`. -/
def upperHex : List Char := "0123456789ABCDEF".data

/-- Hexadecimal digit (uppercase), as used by Go `url.QueryEscape`:
a lookup into the `upperhex` table (indices are always below 16 for
byte input). -/
def hexDig (n : Nat) : Char :=
  upperHex.getD n '0' 

/-- Characters Go `url.QueryEscape` leaves unescaped: ASCII
alphanumerics and `-`, `_`, `.`, `~`. -/
def isUnreservedQueryChar (c : Char) : Bool :=
  c.isAlphanum || c = '-' || c = '_' || c = '.' || c = '~'

/-- Escape one character the way Go `url.QueryEscape` escapes one
byte: space becomes `+`, unreserved characters stay, everything else
becomes `%XX` (ASCII model; the parameter values in this development
are ASCII, where bytes and characters agree). -/
def escChar (c : Char) : List Char :=
  if c = ' ' then ['+']
  else if isUnreservedQueryChar c then [c]
  else ['%', hexDig (c.toNat / 16), hexDig (c.toNat % 16)]

/-- Model of Go `url.QueryEscape`. -/
def queryEscape (s : String) : String :=
  String.mk (s.data.flatMap escChar)

/-- Two-digit zero-padded rendering of `n < 100`. -/
def pad2 (n : Nat) : String :=
  if n < 10 then "0" ++ toString n else toString n

/-- Rendering of `num / den` to two decimal places, rounding half up.
Integer model of the `%.2f` formatting used by
`RequestMetrics.FormatSize`; no claim in this development depends on
the exact rounded digits. -/
def twoDecOf (num den : Nat) : String :=
  let scaled := (num * 200 + den) / (2 * den)
  toString (scaled / 100) ++ "." ++ pad2 (scaled % 100)

/-- Embedding of `RequestMetrics.FormatSize` (`types.go`): bytes below
1024, `%.2f KB` below one megabyte, `%.2f MB` above. -/
def formatSize (size : Nat) : String :=
  if size ≥ 1048576 then twoDecOf size 1048576 ++ " MB"
  else if size ≥ 1024 then twoDecOf size 1024 ++ " KB"
  else toString size ++ " B"

/-- Embedding of `RequestMetrics.FormatDuration` (`types.go`): the
elapsed time in milliseconds printed to two decimals.  The duration is
supplied in hundredths of a millisecond, which is exactly the
granularity `%.2f ms` prints. -/
def formatDuration (centiMs : Nat) : String :=
  toString (centiMs / 100) ++ "." ++ pad2 (centiMs % 100) ++ " ms"

/-- Standard base64 alphabet, for `base64.StdEncoding`. -/
def b64Alphabet : List Char :=
  "ABCDEFGHIJKLMNOPQRSTUVWXYZabcdefghijklmnopqrstuvwxyz0123456789+/".data

/-- Character of the base64 alphabet at index `n`. -/
def b64At (n : Nat) : Char :=
  b64Alphabet.getD n 'A'

/-- Base64 encoding of a byte list, with `=` padding
(`base64.StdEncoding.EncodeToString`). -/
def base64Chars : List Nat → List Char
  | [] => []
  | [b1] => [b64At (b1 / 4), b64At (b1 % 4 * 16), '=', '=']
  | [b1, b2] => [b64At (b1 / 4), b64At (b1 % 4 * 16 + b2 / 16), b64At (b2 % 16 * 4), '=']
  | b1 :: b2 :: b3 :: rest =>
    b64At (b1 / 4) :: b64At (b1 % 4 * 16 + b2 / 16) ::
      b64At (b2 % 16 * 4 + b3 / 64) :: b64At (b3 % 64) :: base64Chars rest

/-- Model of `base64.StdEncoding.EncodeToString` over the byte view of
a string (ASCII model). -/
def base64Encode (s : String) : String :=
  String.mk (base64Chars (s.data.map Char.toNat))

/-! ### Request and response data model (`internal/proxy/types.go`) -/

/-- Embedding of the `ProxyRequest` struct (`types.go`): the JSON
payload of `POST /proxy/request`.  `FollowRedirects` is a `*bool` in
Go (`nil` = flag absent), modelled as `Option Bool`; `PathParams` is a
`map[string]string` (`nil` = absent), modelled as an association list
in iteration order (Go map iteration order is unspecified, so the
theorems are stated for every order). -/
structure ProxyRequest where
  method : String := ""
  url : String := ""
  headers : List String := []
  body : String := ""
  timeout : Int := 0
  followRedirects : Option Bool := none
  pathParams : Option (List (String × String)) := none
  passThrough : Bool := false
  streaming : Bool := false
deriving Repr, DecidableEq

/-- Embedding of the `FormProxyRequest` struct (`types.go`): the query
parameters of `POST /proxy/form` plus the raw multipart body. -/
structure FormProxyRequest where
  url : String := ""
  method : String := ""
  timeout : Int := 0
  followRedirects : Option Bool := none
  contentType : String := ""
  headers : String := ""
  pathParams : String := ""
  rawBody : String := ""
deriving Repr, DecidableEq

/-- Embedding of the `ProxyResponse` struct (`types.go`).
`rawResponseBody` and `passThrough` carry the Go `json:"-"` tag and
are never serialized. -/
structure ProxyResponse where
  success : Bool := false
  responseStatus : Nat := 0
  responseHeaders : List (String × String) := []
  responseData : String := ""
  responseSize : String := ""
  responseTime : String := ""
  contentType : String := ""
  isBinary : Bool := false
  cancelled : Bool := false
  errorType : String := ""
  errorTitle : String := ""
  errorMessage : String := ""
  rawResponseBody : String := ""
  passThrough : Bool := false
deriving Repr, DecidableEq

/-- Embedding of the `StreamingResponse` struct (`types.go`), the
metadata preamble of a streaming reply. -/
structure StreamingResponse where
  success : Bool := false
  responseStatus : Nat := 0
  responseHeaders : List (String × String) := []
  contentType : String := ""
  isBinary : Bool := false
  cancelled : Bool := false
  errorType : String := ""
  errorTitle : String := ""
  errorMessage : String := ""
deriving Repr, DecidableEq

/-- Embedding of the `ProxyError` struct (`types.go`). -/
structure ProxyError where
  type : String
  title : String
  message : String := ""
deriving Repr, DecidableEq

/-- The predefined `URLValidationError` of `types.go`. -/
def URLValidationError : ProxyError := { type := "url_validation_error", title := "Invalid URL" }

/-- The predefined `TimeoutError` of `types.go`. -/
def TimeoutError : ProxyError := { type := "timeout", title := "Request Timed Out" }

/-- The predefined `ConnectionError` of `types.go`. -/
def ConnectionError : ProxyError := { type := "connection_error", title := "Connection Failed" }

/-- The predefined `RedirectNotFollowedError` of `types.go`. -/
def RedirectNotFollowedError : ProxyError :=
  { type := "redirect_not_followed", title := "Redirect Not Followed" }

/-- The predefined `LoopDetectedError` of `types.go`. -/
def LoopDetectedError : ProxyError := { type := "loop_detected", title := "Loop Detected" }

/-- The predefined `StreamingTimeoutError` of `types.go`.  Note the
`Type` string in the source is `"request_timeout"`. -/
def StreamingTimeoutError : ProxyError :=
  { type := "request_timeout", title := "Streaming Request Timeout" }

/-! ### Loop detector (`internal/proxy/server.go`) -/

/-- The observable fields of a `*url.URL` produced by `net/url.Parse`
that the repository inspects: `Scheme`, `Host` (may include a port),
`Hostname()` (port stripped) and `Path`.  Parsing itself happens in
the Go standard library, so parse results enter the embedding as
explicit values. -/
structure UrlParts where
  scheme : String := ""
  host : String := ""
  hostname : String := ""
  path : String := ""
deriving Repr, DecidableEq

/-- The compiled-in blocked hostname list of `NewServer`
(`server.go`). -/
def defaultBlockedHostnames : List String :=
  ["p.requestbite.com", "dev.p.requestbite.com"]

/-- Embedding of `Server.isBlockedHostname` (`server.go`): linear scan
with `strings.EqualFold`. -/
def isBlockedHostname (blockedHostnames : List String) (hostname : String) : Bool :=
  blockedHostnames.any (fun blockedHost => eqFold hostname blockedHost)

/-- Embedding of `Server.isLoopbackRequest` (`server.go`): an
unparseable URL is let through (validation handles it later), a target
path of exactly `/health` is always allowed, otherwise the hostname
(port ignored) is checked against the blocked list.  `parsed` is the
`url.Parse` outcome for the target URL. -/
def isLoopbackRequest (blockedHostnames : List String) (parsed : Option UrlParts) : Bool :=
  match parsed with
  | none => false
  | some u =>
    if u.path = "/health" then false
    else isBlockedHostname blockedHostnames u.hostname

/-- Embedding of `Server.isProxyUserAgent` (`server.go`): the inbound
`User-Agent` header contains `rb-slingshot`, case-insensitively. -/
def isProxyUserAgent (userAgent : String) : Bool :=
  if userAgent = "" then false
  else strContains (strToLower userAgent) "rb-slingshot"

/-- Embedding of `Server.detectLoop` (`server.go`): the User-Agent
signature check fires first and blocks unconditionally; otherwise the
target-hostname check decides. -/
def detectLoop (userAgent : String) (parsedTarget : Option UrlParts)
    (blockedHostnames : List String) : Bool :=
  isProxyUserAgent userAgent || isLoopbackRequest blockedHostnames parsedTarget

/-- Embedding of `HTTPClient.substitutePathParams` (client): for each
pair, strip one leading colon from the name, prepend `:`, and replace
all occurrences in the URL by the query-escaped value; pairs are
processed in map-iteration order, here the list order. -/
def substitutePathParams (targetURL : String) (pathParams : List (String × String)) : String :=
  pathParams.foldl
    (fun resultURL nv =>
      let pattern := ":" ++ trimLeadColon nv.1
      let encodedValue := queryEscape nv.2
      replaceAll resultURL pattern encodedValue)
    targetURL

/-! ### Request executor (client, embedded in the README) -/

deriving instance DecidableEq for Except

/-- A transport-level failure of `client.Do`, together with whether
`ctx.Err() == context.DeadlineExceeded` held when the caller checked
it. -/
structure TranspErr where
  msg : String
  ctxDeadlineExceeded : Bool
deriving Repr, DecidableEq

/-- The observable part of an upstream `*http.Response`: status code,
header map (`map[string][]string`), and the outcome of
`io.ReadAll(resp.Body)`. -/
structure UpResponse where
  status : Nat
  headers : List (String × List String)
  bodyRead : Except String String
deriving Repr, DecidableEq

/-- Model of `http.Header.Get`: case-insensitive lookup of the first
value of the first matching key, empty string when absent (Go
canonicalizes the key before an exact map lookup; case-insensitive
first-match lookup is the observable behaviour). -/
def headerGet (headers : List (String × List String)) (key : String) : String :=
  match headers.find? (fun kv => eqFold kv.1 key) with
  | some kv =>
    match kv.2 with
    | v :: _ => v
    | [] => ""
  | none => ""

/-- Model of the single outbound `net/http` client shared by all
calls: what `client.Do` yields when redirects are auto-followed
(`CheckRedirect = nil`) and when they are not
(`CheckRedirect` returning `http.ErrUseLastResponse`).  A concurrency
hazard of the shared mutable `CheckRedirect` field is treated
separately by the interleaving model below. -/
structure Transport where
  resultNoFollow : Except TranspErr UpResponse
  resultFollow : Except TranspErr UpResponse
deriving Repr, DecidableEq

/-- Embedding of `HTTPClient.executeWithRedirects` (client), at the
granularity of one call in isolation: with `followRedirects` the
temporary `CheckRedirect = nil` makes `client.Do` auto-follow,
otherwise the default policy returns the first response as-is. -/
def executeWithRedirects (t : Transport) (followRedirects : Bool) :
    Except TranspErr UpResponse :=
  if followRedirects then t.resultFollow else t.resultNoFollow

/-- Embedding of `HTTPClient.validateURL` (client); returns the error
message when validation fails.  `parsed` is the `url.Parse` outcome
for `urlStr`. -/
def validateURL (urlStr : String) (parsed : Option UrlParts) : Option String :=
  if urlStr = "" then some "URL is required"
  else
    match parsed with
    | none => some "Invalid URL format"
    | some u =>
      if u.scheme = "" || u.host = "" then some "Invalid URL format"
      else if u.scheme ≠ "http" && u.scheme ≠ "https" then
        some "Only HTTP and HTTPS schemes are supported"
      else none

/-- The content-type fragments `HTTPClient.isBinaryContent` (client)
treats as binary. -/
def binaryTypes : List String :=
  ["image/", "video/", "audio/", "application/pdf", "application/zip",
   "application/octet-stream", "application/msword", "application/vnd.",
   "application/x-", "font/"]

/-- Embedding of `HTTPClient.isBinaryContent` (client). -/
def isBinaryContent (contentType : String) : Bool :=
  if contentType = "" then false
  else binaryTypes.any (fun binaryType => strContains (strToLower contentType) binaryType)

/-- Lower-cases header names keeping the first value of each,
as done in `processResponse` and `createStreamingResponse` (client). -/
def lowerFirstHeaders (headers : List (String × List String)) : List (String × String) :=
  headers.filterMap (fun kv =>
    match kv.2 with
    | v :: _ => some (strToLower kv.1, v)
    | [] => none)

/-- Embedding of `HTTPClient.processResponse` (client): builds the
success envelope.  `centiMs` is the elapsed duration in hundredths of
a millisecond (the `RequestMetrics` timestamps live outside the pure
model); `metrics.ResponseSize` has been set to `len(body)` by the
caller, exactly as `ExecuteRequest` does. -/
def processResponse (resp : UpResponse) (body : String) (centiMs : Nat)
    (passThrough : Bool) : ProxyResponse :=
  let contentType := headerGet resp.headers "Content-Type"
  let isBinary := isBinaryContent contentType
  { success := true
    responseStatus := resp.status
    responseHeaders := lowerFirstHeaders resp.headers
    responseData := if isBinary then base64Encode body else body
    responseSize := formatSize body.length
    responseTime := formatDuration centiMs
    contentType := contentType
    isBinary := isBinary
    cancelled := false
    passThrough := passThrough
    rawResponseBody := if passThrough then body else "" }

/-- Embedding of `HTTPClient.createErrorResponse` (client). -/
def createErrorResponse (errType : ProxyError) (message : String) (centiMs : Nat) :
    ProxyResponse :=
  { success := false
    errorType := errType.type
    errorTitle := errType.title
    errorMessage := message
    responseTime := formatDuration centiMs
    cancelled := false }

/-- Embedding of `HTTPClient.createStreamingResponse` (client): the
success preamble of a streaming reply. -/
def createStreamingResponse (resp : UpResponse) : StreamingResponse :=
  let contentType := headerGet resp.headers "Content-Type"
  { success := true
    responseStatus := resp.status
    responseHeaders := lowerFirstHeaders resp.headers
    contentType := contentType
    isBinary := isBinaryContent contentType
    cancelled := false }

/-- Embedding of `HTTPClient.createStreamingErrorResponse` (client). -/
def createStreamingErrorResponse (errType : ProxyError) (message : String) :
    StreamingResponse :=
  { success := false
    errorType := errType.type
    errorTitle := errType.title
    errorMessage := message
    cancelled := false }

/-- Embedding of `Server.writeErrorResponse` (`server.go`): the
envelope it serializes (with HTTP status 200). -/
def writeErrorResponseBody (errorType errorTitle errorMessage : String) : ProxyResponse :=
  { success := false
    errorType := errorType
    errorTitle := errorTitle
    errorMessage := errorMessage
    cancelled := false }

/-- Embedding of `HTTPClient.ExecuteRequest` (client).  Inputs beyond
the request: the `url.Parse` outcome for `req.url`, the outcome of
`http.NewRequestWithContext` (`some msg` when request construction
fails), the shared transport, and the elapsed duration.  Returns the
envelope together with the Go `error` return value (modelled as
`Option String`).  Header assembly and the default `User-Agent`
injection configure the outbound request consumed by the transport and
do not affect the returned envelope.  The order of checks follows the
source: URL validation, request construction, `executeWithRedirects`,
the deadline/redirect/connection error triage, the manual 3xx check
when redirects are disabled, the body read, then `processResponse`. -/
def executeRequest (req : ProxyRequest) (parsed : Option UrlParts)
    (buildErr : Option String) (t : Transport) (centiMs : Nat) :
    ProxyResponse × Option String :=
  match validateURL req.url parsed with
  | some msg => (createErrorResponse URLValidationError msg centiMs, none)
  | none =>
    match buildErr with
    | some msg =>
      (createErrorResponse URLValidationError ("Failed to create request: " ++ msg) centiMs,
       none)
    | none =>
      let followRedirects := req.followRedirects.getD true
      match executeWithRedirects t followRedirects with
      | .error te =>
        if te.ctxDeadlineExceeded then
          (createErrorResponse TimeoutError "The server took too long to respond." centiMs,
           none)
        else if strContains te.msg "redirect" && !followRedirects then
          (createErrorResponse RedirectNotFollowedError
            "Server attempted to redirect but followRedirects is disabled." centiMs, none)
        else
          (createErrorResponse ConnectionError
            ("Failed to connect to server: " ++ te.msg) centiMs, none)
      | .ok resp =>
        if !followRedirects && 300 ≤ resp.status && resp.status < 400 then
          (createErrorResponse RedirectNotFollowedError
            ("Server returned " ++ toString resp.status ++
             " redirect but following redirects is disabled. Please check your settings.")
            centiMs, none)
        else
          match resp.bodyRead with
          | .error msg =>
            (createErrorResponse ConnectionError ("Failed to read response: " ++ msg) centiMs,
             none)
          | .ok body => (processResponse resp body centiMs req.passThrough, none)

/-- Embedding of `HTTPClient.isSSEResponse` (client): content type
must contain `text/event-stream`, and then chunked transfer-encoding
or an absent `Content-Length` qualifies the response as a stream. -/
def isSSEResponse (resp : UpResponse) : Bool :=
  let contentType := strToLower (headerGet resp.headers "Content-Type")
  let hasEventStream := strContains contentType "text/event-stream"
  if !hasEventStream then false
  else
    let transferEncoding := strToLower (headerGet resp.headers "Transfer-Encoding")
    let hasChunked := strContains transferEncoding "chunked"
    let contentLength := headerGet resp.headers "Content-Length"
    let noContentLength := contentLength == ""
    hasChunked || noContentLength

/-! ### Handlers (`internal/proxy/server.go`) -/

/-- Result of the validation phase of `Server.handleJSONRequest`
(`server.go`), from the point where the JSON body has been
unmarshalled into a `ProxyRequest` (a missing JSON field leaves the Go
zero value) up to the hand-off to the executor: either a
`request_format_error` envelope, the loop-detected envelope, or the
request the executor is invoked with.  Only in the `execute` case does
any outbound network activity happen. -/
inductive JSONOutcome where
  | formatError (title message : String)
  | loopBlocked
  | execute (req : ProxyRequest)
deriving Repr, DecidableEq

/-- Embedding of the validation phase of `Server.handleJSONRequest`
(`server.go`): required-field checks, timeout default, path-parameter
substitution, then `detectLoop` on the substituted URL.  `parseF`
models `net/url.Parse` for the loop check. -/
def handleJSONValidate (req : ProxyRequest) (userAgent : String)
    (parseF : String → Option UrlParts) (blockedHostnames : List String) : JSONOutcome :=
  if req.method = "" then .formatError "Missing Method" "HTTP method is required"
  else if req.url = "" then .formatError "Missing URL" "URL is required"
  else
    let req := if req.timeout = 0 then { req with timeout := 60 } else req
    let req :=
      match req.pathParams with
      | some ps => { req with url := substitutePathParams req.url ps }
      | none => req
    if detectLoop userAgent (parseF req.url) blockedHostnames then .loopBlocked
    else .execute req

/-- Result of the validation phase of `Server.handleFormRequest`
(`server.go`): either an error envelope, the loop-detected envelope,
or the form request (plus parsed form data) handed to
`ExecuteFormRequest`. -/
inductive FormOutcome where
  | formatError (title message : String)
  | loopBlocked
  | execute (req : FormProxyRequest) (formData : List (String × String))
deriving Repr, DecidableEq

/-- Embedding of the validation phase of `Server.handleFormRequest`
(`server.go`): only `url` is validated, then `detectLoop`, then the
method defaults to `POST` and the timeout to 60, then the body is read
raw (multipart) or parsed as a form.  `inboundContentType` is the
inbound request's `Content-Type` header; `bodyRead` is the
`io.ReadAll` outcome used in the multipart branch; `formParse` is the
`ParseForm` outcome, already joined to one comma-separated value per
key as the source does. -/
def handleFormValidate (q : FormProxyRequest) (userAgent : String)
    (parseF : String → Option UrlParts) (blockedHostnames : List String)
    (inboundContentType : String) (bodyRead : Except String String)
    (formParse : Except String (List (String × String))) : FormOutcome :=
  if q.url = "" then .formatError "Missing URL" "URL is required"
  else if detectLoop userAgent (parseF q.url) blockedHostnames then .loopBlocked
  else
    let q := if q.method = "" then { q with method := "POST" } else q
    let q := if q.timeout = 0 then { q with timeout := 60 } else q
    if strContains inboundContentType "multipart/form-data" then
      match bodyRead with
      | .error msg => .formatError "Failed to read request body" ("Error reading body: " ++ msg)
      | .ok raw => .execute { q with rawBody := raw, contentType := inboundContentType } []
    else
      match formParse with
      | .error msg => .formatError "Invalid form data" ("Failed to parse form data: " ++ msg)
      | .ok formData => .execute q formData

/-- What `Server.handleJSONRequest` (`server.go`) writes to the caller
after a successful non-streaming execution: either the raw upstream
body under the upstream content type (pass-through), or a JSON
envelope under `application/json`. -/
inductive Delivery where
  | raw (contentType : Option String) (body : String)
  | jsonEnvelope (contentType : String) (resp : ProxyResponse)
deriving Repr, DecidableEq

/-- Embedding of the delivery step of `Server.handleJSONRequest`
(`server.go`): when `req.PassThrough && response.Success`, the
`application/json` header is deleted, the upstream content type is set
when non-empty, and the raw body bytes are written; otherwise the
envelope is JSON-encoded under the `application/json` header set at
the top of the handler. -/
def deliverResponse (passThrough : Bool) (response : ProxyResponse) : Delivery :=
  if passThrough && response.success then
    .raw (if response.contentType ≠ "" then some response.contentType else none)
      response.rawResponseBody
  else
    .jsonEnvelope "application/json" response

/-- What `HTTPClient.ExecuteStreamingRequest` (client) does once it
holds a successful upstream response: relay as a stream (preamble then
chunks) or fall back to one standard JSON envelope. -/
inductive StreamAction where
  | fallbackEnvelope (resp : ProxyResponse)
  | streamRelay (preamble : StreamingResponse)
deriving Repr, DecidableEq

/-- Embedding of the response phase of
`HTTPClient.ExecuteStreamingRequest` (client): if `isSSEResponse`
holds, write the `createStreamingResponse` preamble and relay the body
chunk-by-chunk; otherwise read the full body and write the standard
`processResponse` envelope (with `passThrough` hard-coded to `false`,
as in the source). `body` is the fallback branch's successful
`io.ReadAll` result. -/
def streamingResponsePhase (resp : UpResponse) (body : String) (centiMs : Nat) :
    StreamAction :=
  if isSSEResponse resp then .streamRelay (createStreamingResponse resp)
  else .fallbackEnvelope (processResponse resp body centiMs false)

/-- Embedding of the streaming error dispatch in
`Server.handleJSONRequest` (`server.go`): when
`ExecuteStreamingRequest` returns an error whose text contains
`streaming timeout` (produced for a deadline expiry or cancellation
mid-relay), the handler writes an envelope built from
`StreamingTimeoutError`; any other error yields the `unknown_error`
envelope. -/
def streamErrorDispatch (errMsg : String) : ProxyResponse :=
  if strContains errMsg "streaming timeout" then
    writeErrorResponseBody StreamingTimeoutError.type StreamingTimeoutError.title errMsg
  else
    writeErrorResponseBody "unknown_error" "Streaming Request Failed" errMsg

/-! ### JSON serialization of the envelopes

Go `encoding/json` omits a field carrying the `omitempty` option
whenever its value is the zero value of its type: `false` for `bool`,
`0` for numbers, `""` for strings, and `nil`/empty for maps.  Fields
tagged `json:"-"` are never serialized.  The following functions
compute, from the struct tags in `types.go`, exactly which keys appear
in the serialized JSON object of an envelope. -/

/-- The keys present in the JSON serialization of a `ProxyResponse`
(`types.go` struct tags): `success` has no `omitempty`; every other
serialized field does; `RawResponseBody` and `PassThrough` are tagged
`json:"-"`. -/
def proxyResponseJSONKeys (r : ProxyResponse) : List String :=
  ["success"] ++
  (if r.responseStatus ≠ 0 then ["response_status"] else []) ++
  (if r.responseHeaders ≠ [] then ["response_headers"] else []) ++
  (if r.responseData ≠ "" then ["response_data"] else []) ++
  (if r.responseSize ≠ "" then ["response_size"] else []) ++
  (if r.responseTime ≠ "" then ["response_time"] else []) ++
  (if r.contentType ≠ "" then ["content_type"] else []) ++
  (if r.isBinary then ["is_binary"] else []) ++
  (if r.cancelled then ["cancelled"] else []) ++
  (if r.errorType ≠ "" then ["error_type"] else []) ++
  (if r.errorTitle ≠ "" then ["error_title"] else []) ++
  (if r.errorMessage ≠ "" then ["error_message"] else [])

/-- The keys present in the JSON serialization of a
`StreamingResponse` (`types.go` struct tags). -/
def streamingResponseJSONKeys (r : StreamingResponse) : List String :=
  ["success"] ++
  (if r.responseStatus ≠ 0 then ["response_status"] else []) ++
  (if r.responseHeaders ≠ [] then ["response_headers"] else []) ++
  (if r.contentType ≠ "" then ["content_type"] else []) ++
  (if r.isBinary then ["is_binary"] else []) ++
  (if r.cancelled then ["cancelled"] else []) ++
  (if r.errorType ≠ "" then ["error_type"] else []) ++
  (if r.errorTitle ≠ "" then ["error_title"] else []) ++
  (if r.errorMessage ≠ "" then ["error_message"] else [])

/-! ### Interleaving model of the shared redirect policy

`executeWithRedirects` (client) mutates the single shared
`http.Client`: for a `followRedirects=true` call it sets
`c.client.CheckRedirect = nil` (auto-follow), performs `client.Do`,
and restores the no-follow policy in a `defer`; a
`followRedirects=false` call performs `client.Do` directly.  Each of
these three operations is one atomic event; concurrent calls
interleave their events over the shared field. -/

/-- Atomic events of two concurrent `executeWithRedirects` calls:
call A runs with `followRedirects=true`, call B with
`followRedirects=false`. -/
inductive RedirEv where
  | aSetNil
  | aDo
  | aRestore
  | bDo
deriving Repr, DecidableEq

/-- Shared-client state plus the redirect policy each call's
`client.Do` observed: `checkRedirectNil = true` means the shared
`CheckRedirect` field is `nil`, i.e. `client.Do` auto-follows
redirects. -/
structure CRState where
  checkRedirectNil : Bool
  obsA : Option Bool
  obsB : Option Bool
deriving Repr, DecidableEq

/-- One atomic event against the shared client. -/
def crStep (s : CRState) : RedirEv → CRState
  | .aSetNil => { s with checkRedirectNil := true }
  | .aRestore => { s with checkRedirectNil := false }
  | .aDo => { s with obsA := some s.checkRedirectNil }
  | .bDo => { s with obsB := some s.checkRedirectNil }

/-- Runs a schedule of events from the initial state: the client is
constructed with the no-follow policy (`NewHTTPClient` installs a
`CheckRedirect` returning `http.ErrUseLastResponse`). -/
def runSchedule (events : List RedirEv) : CRState :=
  events.foldl crStep { checkRedirectNil := false, obsA := none, obsB := none }

/-- The event sequence `executeWithRedirects` emits for call A
(`followRedirects=true`): set `CheckRedirect = nil`, do, restore. -/
def programFollowTrue : List RedirEv := [.aSetNil, .aDo, .aRestore]

/-- The event sequence `executeWithRedirects` emits for call B
(`followRedirects=false`): just `client.Do` under the current shared
policy. -/
def programFollowFalse : List RedirEv := [.bDo]

/-- Tests whether `zs` is an interleaving of `xs` and `ys`
(each kept in order). -/
def isMergeOf : List RedirEv → List RedirEv → List RedirEv → Bool
  | [], [], [] => true
  | _, _, [] => false
  | xs, ys, z :: zs =>
    (match xs with
     | x :: xt => x = z && isMergeOf xt ys zs
     | [] => false) ||
    (match ys with
     | y :: yt => y = z && isMergeOf xs yt zs
     | [] => false)

/-! ### Claims -/

/-- C1: for every inbound proxy call, if the incoming `User-Agent`
contains `rb-slingshot` case-insensitively the call is blocked
regardless of the target (including `/health` targets); otherwise it
is blocked iff the target URL parses, its path is not exactly
`/health`, and its hostname (port ignored) equals some blocked
hostname case-insensitively.  The closing conjuncts instantiate the
two particular cases of the claim: a blocklisted hostname at a
non-`/health` path is blocked while the identical call at `/health` is
allowed, and a signature User-Agent is blocked even at `/health`. -/
theorem C1_loop_detection_decision :
    (∀ (userAgent : String) (parsedTarget : Option UrlParts)
        (blockedHostnames : List String),
      detectLoop userAgent parsedTarget blockedHostnames = true ↔
        (strContains (strToLower userAgent) "rb-slingshot" = true ∨
          ∃ u, parsedTarget = some u ∧ u.path ≠ "/health" ∧
            ∃ b ∈ blockedHostnames, strToLower u.hostname = strToLower b)) ∧
    detectLoop "curl/8.0"
      (some { scheme := "https", host := "p.requestbite.com",
              hostname := "p.requestbite.com", path := "/api" })
      defaultBlockedHostnames = true ∧
    detectLoop "curl/8.0"
      (some { scheme := "https", host := "p.requestbite.com",
              hostname := "p.requestbite.com", path := "/health" })
      defaultBlockedHostnames = false ∧
    detectLoop "rb-slingshot/0.1.0 (https://requestbite.com/slingshot)"
      (some { scheme := "https", host := "example.com",
              hostname := "example.com", path := "/health" })
      defaultBlockedHostnames = true := by
  refine ⟨?_, by decide, by decide, by decide⟩
  intro ua pt bl
  have hua : (isProxyUserAgent ua = true) ↔ strContains (strToLower ua) "rb-slingshot" = true := by
    by_cases h : ua = ""
    · subst h; decide
    · simp [isProxyUserAgent, h]
  have hloop : (isLoopbackRequest bl pt = true) ↔
      (∃ u, pt = some u ∧ u.path ≠ "/health" ∧ ∃ b ∈ bl, strToLower u.hostname = strToLower b) := by
    cases pt with
    | none => simp [isLoopbackRequest]
    | some u =>
      by_cases hp : u.path = "/health"
      · simp [isLoopbackRequest, hp]
      · simp [isLoopbackRequest, hp, isBlockedHostname, List.any_eq_true, eqFold]
  simp only [detectLoop, Bool.or_eq_true, hua, hloop]

/-- C2 (amended): on the JSON endpoint a payload with empty `method`
or empty `url` yields a `request_format_error` envelope and never
reaches the executor; with both non-empty the required-field
validation never fails and, when execution is reached, the request
carries the timeout default (60 when the given timeout is zero)
applied after validation.  On the form endpoint only `url` is
required, and an empty `method` defaults to `POST` rather than being
rejected. -/
theorem C2_required_field_validation :
    (∀ (req : ProxyRequest) (ua : String) (pf : String → Option UrlParts)
        (bl : List String),
      req.method = "" ∨ req.url = "" →
        handleJSONValidate req ua pf bl = .formatError "Missing Method" "HTTP method is required" ∨
        handleJSONValidate req ua pf bl = .formatError "Missing URL" "URL is required") ∧
    (∀ (req : ProxyRequest) (ua : String) (pf : String → Option UrlParts)
        (bl : List String) (title msg : String),
      req.method ≠ "" → req.url ≠ "" →
        handleJSONValidate req ua pf bl ≠ .formatError title msg) ∧
    (∀ (req : ProxyRequest) (ua : String) (pf : String → Option UrlParts)
        (bl : List String) (req2 : ProxyRequest),
      handleJSONValidate req ua pf bl = .execute req2 →
        req2.timeout = if req.timeout = 0 then 60 else req.timeout) ∧
    (∀ (q : FormProxyRequest) (ua : String) (pf : String → Option UrlParts)
        (bl : List String) (ct : String) (br : Except String String)
        (fp : Except String (List (String × String))),
      q.url = "" →
        handleFormValidate q ua pf bl ct br fp = .formatError "Missing URL" "URL is required") ∧
    (∀ (q : FormProxyRequest) (ua : String) (pf : String → Option UrlParts)
        (bl : List String) (ct : String) (br : Except String String)
        (fp : Except String (List (String × String)))
        (q2 : FormProxyRequest) (fd : List (String × String)),
      q.method = "" →
        handleFormValidate q ua pf bl ct br fp = .execute q2 fd →
          q2.method = "POST") := by
  refine ⟨?_, ?_, ?_, ?_, ?_⟩
  · intro req ua pf bl h
    by_cases hm : req.method = ""
    · left; simp [handleJSONValidate, hm]
    · right
      rcases h with h | h
      · exact absurd h hm
      · simp [handleJSONValidate, hm, h]
  · intro req ua pf bl title msg hm hu h
    unfold handleJSONValidate at h
    rw [if_neg hm, if_neg hu] at h
    dsimp only at h
    split at h <;> (try split at h) <;> simp_all
  · intro req ua pf bl req2 h
    by_cases hm : req.method = ""
    · simp [handleJSONValidate, hm] at h
    by_cases hu : req.url = ""
    · simp [handleJSONValidate, hm, hu] at h
    by_cases ht : req.timeout = 0 <;> cases hpp : req.pathParams <;>
      simp [handleJSONValidate, hm, hu, ht, hpp] at h <;>
      split at h <;> (try split at h) <;> simp_all <;> (subst h; simp [ht])
  · intro q ua pf bl ct br fp h
    simp [handleFormValidate, h]
  · intro q ua pf bl ct br fp q2 fd hm h
    by_cases hu : q.url = ""
    · simp [handleFormValidate, hu] at h
    cases br <;> cases fp <;>
      by_cases ht : q.timeout = 0 <;>
        simp [handleFormValidate, hu, hm, ht] at h <;>
        split at h <;> (try split at h) <;> simp_all <;>
          (first
            | (subst h; simp)
            | (obtain ⟨h1, h2⟩ := h; subst h1; simp))

/-- C2 counterexample: the claim as stated fails on the form endpoint.
A form call with a non-empty `url` and an empty `method` is not
rejected with `request_format_error`; validation passes, the method
defaults to `POST`, and the handler proceeds to execute the outbound
call. -/
theorem C2_form_method_not_required_cex :
    handleFormValidate { url := "http://example.com/", method := "" } ""
        (fun _ => some { scheme := "http", host := "example.com",
                         hostname := "example.com", path := "/" })
        defaultBlockedHostnames
        "application/x-www-form-urlencoded" (.ok "") (.ok []) =
      .execute { url := "http://example.com/", method := "POST", timeout := 60 } [] := by
  decide

/-- C2 witness: the amended claim applied at concrete inputs — a JSON
payload with empty method is rejected, a JSON payload with both fields
set is never rejected by required-field validation, and a form payload
with empty url is rejected. -/
theorem C2_required_field_validation_witness :
    (handleJSONValidate { method := "", url := "http://e.com/" } "" (fun _ => none) [] =
        .formatError "Missing Method" "HTTP method is required" ∨
      handleJSONValidate { method := "", url := "http://e.com/" } "" (fun _ => none) [] =
        .formatError "Missing URL" "URL is required") ∧
    handleJSONValidate { method := "GET", url := "http://e.com/" } "" (fun _ => none) [] ≠
      .formatError "Missing Method" "HTTP method is required" ∧
    handleFormValidate { url := "" } "" (fun _ => none) [] "" (.ok "") (.ok []) =
      .formatError "Missing URL" "URL is required" :=
  ⟨C2_required_field_validation.1 _ _ _ _ (Or.inl rfl),
   C2_required_field_validation.2.1 _ _ _ _ _ _ (by decide) (by decide),
   C2_required_field_validation.2.2.2.1 _ _ _ _ _ _ _ rfl⟩

/-- C5: the claim that a call's redirect behaviour is determined
solely by its own `followRedirects` flag fails on the code:
`executeWithRedirects` mutates the shared client's `CheckRedirect`
field.  Under the interleaving in which call A (`followRedirects =
true`) sets `CheckRedirect = nil`, then call B (`followRedirects =
false`) performs its `client.Do`, then A does and restores, B's
`client.Do` runs with the auto-follow policy (`obsB = some true`),
although B run in isolation observes the no-follow policy
(`obsB = some false`). -/
theorem C5_redirect_policy_race :
    isMergeOf programFollowTrue programFollowFalse
      [.aSetNil, .bDo, .aDo, .aRestore] = true ∧
    (runSchedule [.aSetNil, .bDo, .aDo, .aRestore]).obsB = some true ∧
    (runSchedule programFollowFalse).obsB = some false := by
  decide

/-- C3: for an upstream whose immediate answer is a 3xx redirect that
leads, when followed, to a 200 response, execution with
`followRedirects = true` (or with the flag absent, since the default
is true) yields a success envelope with `response_status = 200`, while
execution with `followRedirects = false` yields a failure envelope
with `error_type = redirect_not_followed` — the observed 3xx response
is translated into that error rather than returned as a normal
response. -/
theorem C3_redirect_policy (req : ProxyRequest) (p : Option UrlParts) (t : Transport)
    (r3 r2 : UpResponse) (body : String) (c : Nat)
    (hv : validateURL req.url p = none)
    (hnf : t.resultNoFollow = .ok r3) (h3lo : 300 ≤ r3.status) (h3hi : r3.status < 400)
    (hf : t.resultFollow = .ok r2) (h2 : r2.status = 200) (hb : r2.bodyRead = .ok body) :
    ((executeRequest { req with followRedirects := some true } p none t c).1.success = true ∧
     (executeRequest { req with followRedirects := some true } p none t c).1.responseStatus
       = 200) ∧
    ((executeRequest { req with followRedirects := none } p none t c).1.success = true ∧
     (executeRequest { req with followRedirects := none } p none t c).1.responseStatus
       = 200) ∧
    ((executeRequest { req with followRedirects := some false } p none t c).1.success = false ∧
     (executeRequest { req with followRedirects := some false } p none t c).1.errorType
       = "redirect_not_followed") := by
  refine ⟨⟨?_, ?_⟩, ⟨?_, ?_⟩, ?_, ?_⟩ <;>
    simp [executeRequest, hv, executeWithRedirects, hf, hnf, hb, h2, h3lo, h3hi,
      processResponse, createErrorResponse, RedirectNotFollowedError]

/-- C3 witness: the redirect policy at a concrete upstream that
answers 302 and, when the redirect is followed, 200. -/
theorem C3_redirect_policy_witness :
    ((executeRequest
        { method := "GET", url := "http://example.com/a", followRedirects := some true }
        (some { scheme := "http", host := "example.com", hostname := "example.com",
                path := "/a" })
        none
        { resultNoFollow := .ok { status := 302, headers := [("Location", ["http://example.com/b"])],
                                  bodyRead := .ok "" },
          resultFollow := .ok { status := 200, headers := [("Content-Type", ["text/plain"])],
                                bodyRead := .ok "hello" } }
        150).1.success = true ∧
     (executeRequest
        { method := "GET", url := "http://example.com/a", followRedirects := some true }
        (some { scheme := "http", host := "example.com", hostname := "example.com",
                path := "/a" })
        none
        { resultNoFollow := .ok { status := 302, headers := [("Location", ["http://example.com/b"])],
                                  bodyRead := .ok "" },
          resultFollow := .ok { status := 200, headers := [("Content-Type", ["text/plain"])],
                                bodyRead := .ok "hello" } }
        150).1.responseStatus = 200) ∧
    ((executeRequest
        { method := "GET", url := "http://example.com/a", followRedirects := none }
        (some { scheme := "http", host := "example.com", hostname := "example.com",
                path := "/a" })
        none
        { resultNoFollow := .ok { status := 302, headers := [("Location", ["http://example.com/b"])],
                                  bodyRead := .ok "" },
          resultFollow := .ok { status := 200, headers := [("Content-Type", ["text/plain"])],
                                bodyRead := .ok "hello" } }
        150).1.success = true ∧
     (executeRequest
        { method := "GET", url := "http://example.com/a", followRedirects := none }
        (some { scheme := "http", host := "example.com", hostname := "example.com",
                path := "/a" })
        none
        { resultNoFollow := .ok { status := 302, headers := [("Location", ["http://example.com/b"])],
                                  bodyRead := .ok "" },
          resultFollow := .ok { status := 200, headers := [("Content-Type", ["text/plain"])],
                                bodyRead := .ok "hello" } }
        150).1.responseStatus = 200) ∧
    ((executeRequest
        { method := "GET", url := "http://example.com/a", followRedirects := some false }
        (some { scheme := "http", host := "example.com", hostname := "example.com",
                path := "/a" })
        none
        { resultNoFollow := .ok { status := 302, headers := [("Location", ["http://example.com/b"])],
                                  bodyRead := .ok "" },
          resultFollow := .ok { status := 200, headers := [("Content-Type", ["text/plain"])],
                                bodyRead := .ok "hello" } }
        150).1.success = false ∧
     (executeRequest
        { method := "GET", url := "http://example.com/a", followRedirects := some false }
        (some { scheme := "http", host := "example.com", hostname := "example.com",
                path := "/a" })
        none
        { resultNoFollow := .ok { status := 302, headers := [("Location", ["http://example.com/b"])],
                                  bodyRead := .ok "" },
          resultFollow := .ok { status := 200, headers := [("Content-Type", ["text/plain"])],
                                bodyRead := .ok "hello" } }
        150).1.errorType = "redirect_not_followed") := by
  have h := C3_redirect_policy
    { method := "GET", url := "http://example.com/a" }
    (some { scheme := "http", host := "example.com", hostname := "example.com", path := "/a" })
    { resultNoFollow := .ok { status := 302, headers := [("Location", ["http://example.com/b"])],
                              bodyRead := .ok "" },
      resultFollow := .ok { status := 200, headers := [("Content-Type", ["text/plain"])],
                            bodyRead := .ok "hello" } }
    { status := 302, headers := [("Location", ["http://example.com/b"])], bodyRead := .ok "" }
    { status := 200, headers := [("Content-Type", ["text/plain"])], bodyRead := .ok "hello" }
    "hello" 150 (by decide) rfl (by decide) (by decide) rfl (by decide) rfl
  exact h

/-- C4: on a successful pass-through call the delivered transport
response carries the upstream's own `Content-Type` header value
(omitted when the upstream sent none) and exactly the upstream's raw
body bytes with no JSON envelope; on a failed call the delivery is the
standard JSON error envelope under `application/json`, even when
pass-through was requested. -/
theorem C4_pass_through_delivery :
    (∀ (resp : UpResponse) (body : String) (c : Nat),
      (processResponse resp body c true).success = true ∧
      (processResponse resp body c true).rawResponseBody = body ∧
      (processResponse resp body c true).contentType = headerGet resp.headers "Content-Type" ∧
      deliverResponse true (processResponse resp body c true) =
        .raw (if headerGet resp.headers "Content-Type" ≠ "" then
                some (headerGet resp.headers "Content-Type") else none) body) ∧
    (∀ (r : ProxyResponse) (pt : Bool), r.success = false →
      deliverResponse pt r = .jsonEnvelope "application/json" r) := by
  constructor
  · intro resp body c
    refine ⟨rfl, by simp [processResponse], rfl, ?_⟩
    simp [deliverResponse, processResponse]
  · intro r pt hr
    simp [deliverResponse, hr]

/-- C4 witness: pass-through delivery at a concrete upstream response
and a concrete failure envelope. -/
theorem C4_pass_through_delivery_witness :
    deliverResponse true
        (processResponse
          { status := 200, headers := [("Content-Type", ["image/png"])], bodyRead := .ok "PNG" }
          "PNG" 10 true) =
      .raw (some "image/png") "PNG" ∧
    deliverResponse true (createErrorResponse ConnectionError "refused" 10) =
      .jsonEnvelope "application/json" (createErrorResponse ConnectionError "refused" 10) := by
  constructor
  · have h := (C4_pass_through_delivery.1
      { status := 200, headers := [("Content-Type", ["image/png"])], bodyRead := .ok "PNG" }
      "PNG" 10).2.2.2
    simpa using h
  · exact C4_pass_through_delivery.2 (createErrorResponse ConnectionError "refused" 10) true rfl

/-- C6: a streaming call relays the upstream as a stream (preamble
plus chunk relay) iff the upstream response's content type contains
`text/event-stream` and additionally its transfer encoding contains
`chunked` or it carries no `Content-Length` header; any response not
satisfying this predicate falls back to the standard non-streaming
path, delivering the single JSON envelope built by `processResponse`
from the fully read body. -/
theorem C6_streaming_qualification :
    ∀ (resp : UpResponse) (body : String) (c : Nat),
      ((∃ pre, streamingResponsePhase resp body c = .streamRelay pre) ↔
        (strContains (strToLower (headerGet resp.headers "Content-Type"))
            "text/event-stream" = true ∧
          (strContains (strToLower (headerGet resp.headers "Transfer-Encoding"))
              "chunked" = true ∨
            headerGet resp.headers "Content-Length" = ""))) ∧
      (¬ (strContains (strToLower (headerGet resp.headers "Content-Type"))
            "text/event-stream" = true ∧
          (strContains (strToLower (headerGet resp.headers "Transfer-Encoding"))
              "chunked" = true ∨
            headerGet resp.headers "Content-Length" = "")) →
        streamingResponsePhase resp body c =
          .fallbackEnvelope (processResponse resp body c false)) := by
  intro resp body c
  have hsse : isSSEResponse resp = true ↔
      (strContains (strToLower (headerGet resp.headers "Content-Type"))
          "text/event-stream" = true ∧
        (strContains (strToLower (headerGet resp.headers "Transfer-Encoding"))
            "chunked" = true ∨
          headerGet resp.headers "Content-Length" = "")) := by
    unfold isSSEResponse
    dsimp only
    cases hes : strContains (strToLower (headerGet resp.headers "Content-Type"))
        "text/event-stream" <;>
      simp [hes, Bool.or_eq_true, beq_iff_eq]
  constructor
  · constructor
    · rintro ⟨pre, hp⟩
      by_cases hs : isSSEResponse resp = true
      · exact hsse.mp hs
      · rw [Bool.not_eq_true] at hs
        simp [streamingResponsePhase, hs] at hp
    · intro hrhs
      exact ⟨createStreamingResponse resp,
        by simp [streamingResponsePhase, hsse.mpr hrhs]⟩
  · intro hrhs
    have hs : isSSEResponse resp = false := by
      cases h : isSSEResponse resp
      · rfl
      · exact absurd (hsse.mp h) hrhs
    simp [streamingResponsePhase, hs]

/-- C6 witness: a chunked `text/event-stream` response is relayed as a
stream, and a plain `application/json` response with a
`Content-Length` falls back to the standard envelope. -/
theorem C6_streaming_qualification_witness :
    (∃ pre, streamingResponsePhase
        { status := 200,
          headers := [("Content-Type", ["text/event-stream"]),
                      ("Transfer-Encoding", ["chunked"])],
          bodyRead := .ok "" } "" 0 = .streamRelay pre) ∧
    streamingResponsePhase
        { status := 200,
          headers := [("Content-Type", ["application/json"]), ("Content-Length", ["2"])],
          bodyRead := .ok "{}" } "{}" 0 =
      .fallbackEnvelope (processResponse
        { status := 200,
          headers := [("Content-Type", ["application/json"]), ("Content-Length", ["2"])],
          bodyRead := .ok "{}" } "{}" 0 false) := by
  constructor
  · exact ((C6_streaming_qualification _ "" 0).1).mpr (by decide)
  · exact (C6_streaming_qualification _ "{}" 0).2 (by decide)

/-- Helper for C7: the Go `upperhex` table contains no colon, so a hex
digit is never a colon (out-of-range indices fall back to the default
`0`). -/
theorem hexDig_ne_colon (n : Nat) : hexDig n ≠ ':' := by
  unfold hexDig
  by_cases h : n < 16
  · interval_cases n <;> decide
  · rw [List.getD_eq_default]
    · decide
    · have : upperHex.length = 16 := by decide
      omega

/-- Helper for C7: query escaping one character never produces a
colon — a colon is not unreserved, so it is always `%3A`-escaped. -/
theorem escChar_no_colon (c : Char) : ':' ∉ escChar c := by
  unfold escChar
  split
  · decide
  · split
    · rename_i hres
      intro hmem
      simp only [List.mem_singleton] at hmem
      rw [← hmem] at hres
      exact absurd hres (by decide)
    · intro hmem
      simp only [List.mem_cons, List.not_mem_nil, or_false] at hmem
      rcases hmem with h | h | h
      · exact absurd h (by decide)
      · exact absurd h.symm (hexDig_ne_colon _)
      · exact absurd h.symm (hexDig_ne_colon _)

/-- Helper for C7: a query-escaped value contains no colon, so
substituted values can never create new `:name` tokens. -/
theorem queryEscape_no_colon (v : String) : ':' ∉ (queryEscape v).data := by
  unfold queryEscape
  intro h
  simp only [List.mem_flatMap] at h
  rcases h with ⟨c, _, hc⟩
  exact escChar_no_colon c hc

/-- Helper for C7: replacing a pattern that starts with a colon leaves
any colon-free character list unchanged. -/
theorem replChars_colon_free (pt rep : List Char) (fuel : Nat) (s : List Char)
    (hs : ':' ∉ s) : replChars ':' pt rep fuel s = s := by
  induction fuel generalizing s with
  | zero => cases s <;> rfl
  | succ fuel ih =>
    cases s with
    | nil => rfl
    | cons c rest =>
      have hc : c ≠ ':' := fun h => hs (h ▸ List.mem_cons_self c rest)
      have hpre : hasPre (':' :: pt) (c :: rest) = false := by
        unfold hasPre
        rw [decide_eq_false (fun h => hc h.symm)]
        rfl
      rw [replChars, hpre]
      simp only [Bool.false_eq_true, if_false]
      rw [ih rest (fun h => hs (List.mem_cons_of_mem c h))]

/-- Helper for C7: `strings.ReplaceAll` with a pattern of the form
`":" ++ tail` leaves a colon-free string unchanged. -/
theorem replaceAll_colon_free (url : String) (tail rep : String)
    (h : ':' ∉ url.data) : replaceAll url (":" ++ tail) rep = url := by
  unfold replaceAll
  have hdata : (":" ++ tail).data = ':' :: tail.data := by
    rw [String.data_append]
    rfl
  rw [hdata]
  dsimp only
  rw [replChars_colon_free _ _ _ _ h]

/-- C7 (amended): for a single provided pair, substitution equals
`ReplaceAll` of `:` + (the name stripped of one leading colon) by the
percent-encoded value — each occurrence replaced once, leftmost
non-overlapping, pairs processed sequentially in map-iteration order;
percent-encoded values never contain a colon, so substituted values
cannot create new parameter tokens; and every URL containing no colon
character at all is returned unchanged by any parameter map. -/
theorem C7_substitution_amended :
    (∀ (url n v : String),
      substitutePathParams url [(n, v)] =
        replaceAll url (":" ++ trimLeadColon n) (queryEscape v)) ∧
    (∀ v : String, ':' ∉ (queryEscape v).data) ∧
    (∀ (url : String) (ps : List (String × String)),
      ':' ∉ url.data → substitutePathParams url ps = url) := by
  refine ⟨fun url n v => rfl, queryEscape_no_colon, ?_⟩
  intro url ps h
  induction ps generalizing url with
  | nil => rfl
  | cons nv rest ih =>
    unfold substitutePathParams
    rw [List.foldl_cons]
    dsimp only
    rw [replaceAll_colon_free url (trimLeadColon nv.1) (queryEscape nv.2) h]
    exact ih url h

/-- C7 counterexample: the claim as stated fails.  With the provided
pair `("", "v")` the matched pattern is a bare `:`, so the URL
`http://x/a` — which contains no `:name` token, only the scheme
colon — is changed, refuting idempotence as claimed; and with
overlapping names `a` and `ab` the literal occurrence of `:ab` in
`/:ab` is not replaced by the encoding of `2` in either processing
order (the result is `/1b` for this order, `/2` for the other), so
not every occurrence of every `:name` is replaced with its value. -/
theorem C7_substitution_cex :
    substitutePathParams "http://x/a" [("", "v")] = "httpv//x/a" ∧
    "httpv//x/a" ≠ "http://x/a" ∧
    substitutePathParams "/:ab" [("a", "1"), ("ab", "2")] = "/1b" := by decide

/-- C7 witness: the amended claim at concrete inputs — a singleton
substitution computed through `ReplaceAll`, colon-freeness of a
concrete escaped value, and invariance of a colon-free URL. -/
theorem C7_substitution_amended_witness :
    substitutePathParams "/users/:id" [(":id", "4 2")] =
      replaceAll "/users/:id" (":" ++ trimLeadColon ":id") (queryEscape "4 2") ∧
    ':' ∉ (queryEscape "a:b").data ∧
    substitutePathParams "relative/path" [("id", "7")] = "relative/path" :=
  ⟨C7_substitution_amended.1 "/users/:id" ":id" "4 2",
   C7_substitution_amended.2.1 "a:b",
   C7_substitution_amended.2.2 "relative/path" [("id", "7")] (by decide)⟩

/-- C8 (amended): the streaming-timeout failure is reported with the
machine-readable error type `request_timeout` — the `Type` string of
the `ProxyError` named `StreamingTimeoutError` — not
`streaming_timeout`; the handler dispatches that envelope for every
streaming error whose text contains `streaming timeout`, which the
client produces for a deadline expiry or cancellation mid-relay (after
the preamble has been sent), while a deadline expiring while
establishing the stream is reported through the streaming error
response built from `TimeoutError`, whose error type is `timeout`. -/
theorem C8_streaming_timeout_kind :
    (∀ msg : String, strContains msg "streaming timeout" = true →
      (streamErrorDispatch msg).errorType = "request_timeout" ∧
      (streamErrorDispatch msg).success = false) ∧
    (∀ msg : String,
      (createStreamingErrorResponse TimeoutError msg).errorType = "timeout" ∧
      (createStreamingErrorResponse TimeoutError msg).success = false) := by
  constructor
  · intro msg h
    constructor <;>
      simp [streamErrorDispatch, h, writeErrorResponseBody, StreamingTimeoutError]
  · intro msg
    exact ⟨rfl, rfl⟩

/-- C8 counterexample: the envelope the handler delivers for a
mid-relay streaming deadline expiry carries error type
`request_timeout`, not `streaming_timeout`; and a deadline expiring
while establishing the stream yields error type `timeout`, also not
`streaming_timeout`. -/
theorem C8_streaming_timeout_kind_cex :
    (streamErrorDispatch "streaming timeout: context deadline exceeded").errorType =
      "request_timeout" ∧
    (streamErrorDispatch "streaming timeout: context deadline exceeded").errorType ≠
      "streaming_timeout" ∧
    (createStreamingErrorResponse TimeoutError
      "The server took too long to respond.").errorType = "timeout" := by
  decide

/-- C8 witness: the amended claim at a concrete error message. -/
theorem C8_streaming_timeout_kind_witness :
    (streamErrorDispatch "streaming timeout: context canceled").errorType =
      "request_timeout" ∧
    (streamErrorDispatch "streaming timeout: context canceled").success = false ∧
    (createStreamingErrorResponse TimeoutError "deadline").errorType = "timeout" :=
  ⟨(C8_streaming_timeout_kind.1 "streaming timeout: context canceled" (by decide)).1,
   (C8_streaming_timeout_kind.1 "streaming timeout: context canceled" (by decide)).2,
   (C8_streaming_timeout_kind.2 "deadline").1⟩

/-- Helper for C9: membership in a conditional singleton list. -/
theorem mem_ite_singleton {α : Type} (a b : α) (c : Prop) [Decidable c] :
    a ∈ (if c then [b] else []) ↔ c ∧ a = b := by
  split <;> simp_all

/-- C9: the claim that the `cancelled` field is present (with value
`false`) in every serialized envelope fails on the code: the field
carries the `omitempty` JSON option, so it is serialized only when it
is `true`; since every envelope this core builds sets it to `false`,
the `cancelled` key is absent from every serialized success envelope,
error envelope and streaming preamble. -/
theorem C9_cancelled_never_serialized :
    (∀ r : ProxyResponse,
      "cancelled" ∈ proxyResponseJSONKeys r ↔ r.cancelled = true) ∧
    (∀ (e : ProxyError) (msg : String) (c : Nat),
      "cancelled" ∉ proxyResponseJSONKeys (createErrorResponse e msg c)) ∧
    (∀ (resp : UpResponse) (body : String) (c : Nat) (pt : Bool),
      "cancelled" ∉ proxyResponseJSONKeys (processResponse resp body c pt)) ∧
    (∀ (t ti m : String),
      "cancelled" ∉ proxyResponseJSONKeys (writeErrorResponseBody t ti m)) ∧
    (∀ resp : UpResponse,
      "cancelled" ∉ streamingResponseJSONKeys (createStreamingResponse resp)) ∧
    (∀ (e : ProxyError) (msg : String),
      "cancelled" ∉ streamingResponseJSONKeys (createStreamingErrorResponse e msg)) := by
  refine ⟨?_, ?_, ?_, ?_, ?_, ?_⟩
  · intro r
    simp [proxyResponseJSONKeys, mem_ite_singleton]
  · intro e msg c
    simp [proxyResponseJSONKeys, createErrorResponse, mem_ite_singleton]
  · intro resp body c pt
    simp [proxyResponseJSONKeys, processResponse, mem_ite_singleton]
  · intro t ti m
    simp [proxyResponseJSONKeys, writeErrorResponseBody, mem_ite_singleton]
  · intro resp
    simp [streamingResponseJSONKeys, createStreamingResponse, mem_ite_singleton]
  · intro e msg
    simp [streamingResponseJSONKeys, createStreamingErrorResponse, mem_ite_singleton]

/-- Helper for C10: a formatted duration always ends in ` ms` and is
therefore never the empty string. -/
theorem formatDuration_ne_empty (c : Nat) : formatDuration c ≠ "" := by
  unfold formatDuration
  intro h
  have hlen := congrArg String.length h
  rw [String.length_append, String.length_append, String.length_append] at hlen
  have h1 : (" ms" : String).length = 3 := rfl
  have h2 : ("." : String).length = 1 := rfl
  have h3 : ("" : String).length = 0 := rfl
  rw [h1, h2, h3] at hlen
  omega

/-- C10: the non-streaming executor is total — for every request and
every transport outcome (invalid URL, request-construction failure,
deadline expiry, refused redirect, connection failure, body-read
failure, or success) `ExecuteRequest` returns an envelope together
with a `nil` Go error, so the caller's `unknown_error` fallback branch
is unreachable through this path; and every failure envelope carries
`success = false` with one of the executor's error kinds and a
non-empty `response_time`. -/
theorem C10_executor_totality :
    ∀ (req : ProxyRequest) (p : Option UrlParts) (buildErr : Option String)
      (t : Transport) (c : Nat),
      (executeRequest req p buildErr t c).2 = none ∧
      ((executeRequest req p buildErr t c).1.success = false →
        ((executeRequest req p buildErr t c).1.errorType = "url_validation_error" ∨
         (executeRequest req p buildErr t c).1.errorType = "timeout" ∨
         (executeRequest req p buildErr t c).1.errorType = "redirect_not_followed" ∨
         (executeRequest req p buildErr t c).1.errorType = "connection_error") ∧
        (executeRequest req p buildErr t c).1.responseTime ≠ "") := by
  intro req p buildErr t c
  unfold executeRequest
  split
  · exact ⟨rfl, fun _ => ⟨Or.inl rfl, formatDuration_ne_empty c⟩⟩
  · split
    · exact ⟨rfl, fun _ => ⟨Or.inl rfl, formatDuration_ne_empty c⟩⟩
    · dsimp only
      split
      · split
        · exact ⟨rfl, fun _ => ⟨Or.inr (Or.inl rfl), formatDuration_ne_empty c⟩⟩
        · split
          · exact ⟨rfl, fun _ => ⟨Or.inr (Or.inr (Or.inl rfl)), formatDuration_ne_empty c⟩⟩
          · exact ⟨rfl, fun _ => ⟨Or.inr (Or.inr (Or.inr rfl)), formatDuration_ne_empty c⟩⟩
      · split
        · exact ⟨rfl, fun _ => ⟨Or.inr (Or.inr (Or.inl rfl)), formatDuration_ne_empty c⟩⟩
        · split
          · exact ⟨rfl, fun _ => ⟨Or.inr (Or.inr (Or.inr rfl)), formatDuration_ne_empty c⟩⟩
          · exact ⟨rfl, fun h => absurd h (by simp [processResponse])⟩

/-- C10 witness: the executor at a concrete refused connection — the
Go error slot is `nil`, the failure is inside the envelope with kind
`connection_error` and a non-empty response time. -/
theorem C10_executor_totality_witness :
    (executeRequest { method := "GET", url := "http://e.com/" }
        (some { scheme := "http", host := "e.com", hostname := "e.com", path := "/" })
        none
        { resultNoFollow := .error { msg := "dial tcp: connection refused",
                                     ctxDeadlineExceeded := false },
          resultFollow := .error { msg := "dial tcp: connection refused",
                                   ctxDeadlineExceeded := false } }
        7).2 = none ∧
    ((executeRequest { method := "GET", url := "http://e.com/" }
        (some { scheme := "http", host := "e.com", hostname := "e.com", path := "/" })
        none
        { resultNoFollow := .error { msg := "dial tcp: connection refused",
                                     ctxDeadlineExceeded := false },
          resultFollow := .error { msg := "dial tcp: connection refused",
                                   ctxDeadlineExceeded := false } }
        7).1.errorType = "url_validation_error" ∨
     (executeRequest { method := "GET", url := "http://e.com/" }
        (some { scheme := "http", host := "e.com", hostname := "e.com", path := "/" })
        none
        { resultNoFollow := .error { msg := "dial tcp: connection refused",
                                     ctxDeadlineExceeded := false },
          resultFollow := .error { msg := "dial tcp: connection refused",
                                   ctxDeadlineExceeded := false } }
        7).1.errorType = "timeout" ∨
     (executeRequest { method := "GET", url := "http://e.com/" }
        (some { scheme := "http", host := "e.com", hostname := "e.com", path := "/" })
        none
        { resultNoFollow := .error { msg := "dial tcp: connection refused",
                                     ctxDeadlineExceeded := false },
          resultFollow := .error { msg := "dial tcp: connection refused",
                                   ctxDeadlineExceeded := false } }
        7).1.errorType = "redirect_not_followed" ∨
     (executeRequest { method := "GET", url := "http://e.com/" }
        (some { scheme := "http", host := "e.com", hostname := "e.com", path := "/" })
        none
        { resultNoFollow := .error { msg := "dial tcp: connection refused",
                                     ctxDeadlineExceeded := false },
          resultFollow := .error { msg := "dial tcp: connection refused",
                                   ctxDeadlineExceeded := false } }
        7).1.errorType = "connection_error") ∧
    (executeRequest { method := "GET", url := "http://e.com/" }
        (some { scheme := "http", host := "e.com", hostname := "e.com", path := "/" })
        none
        { resultNoFollow := .error { msg := "dial tcp: connection refused",
                                     ctxDeadlineExceeded := false },
          resultFollow := .error { msg := "dial tcp: connection refused",
                                   ctxDeadlineExceeded := false } }
        7).1.responseTime ≠ "" := by
  have h := C10_executor_totality { method := "GET", url := "http://e.com/" }
    (some { scheme := "http", host := "e.com", hostname := "e.com", path := "/" })
    none
    { resultNoFollow := .error { msg := "dial tcp: connection refused",
                                 ctxDeadlineExceeded := false },
      resultFollow := .error { msg := "dial tcp: connection refused",
                               ctxDeadlineExceeded := false } }
    7
  exact ⟨h.1, (h.2 (by decide)).1, (h.2 (by decide)).2⟩

/-- C1 witness: the decision characterization applied at a concrete
call — a mixed-case blocked hostname at a non-health path is
blocked. -/
theorem C1_loop_detection_decision_witness :
    detectLoop "curl/8.0"
      (some { scheme := "https", host := "BLOCKED.example", hostname := "BLOCKED.example",
              path := "/x" })
      ["blocked.EXAMPLE"] = true :=
  (C1_loop_detection_decision.1 "curl/8.0" _ ["blocked.EXAMPLE"]).mpr
    (Or.inr ⟨_, rfl, by decide, "blocked.EXAMPLE", by decide, by decide⟩)

/-- C9 witness: the absence of the `cancelled` key at concrete
envelopes. -/
theorem C9_cancelled_never_serialized_witness :
    "cancelled" ∉ proxyResponseJSONKeys (createErrorResponse URLValidationError "bad" 5) ∧
    "cancelled" ∉ streamingResponseJSONKeys (createStreamingErrorResponse TimeoutError "slow") :=
  ⟨C9_cancelled_never_serialized.2.1 URLValidationError "bad" 5,
   C9_cancelled_never_serialized.2.2.2.2.2 TimeoutError "slow"⟩
